import Mathlib

/-!
Verification of the MCPClientDemo agent/registry core against its
natural-language specification.

The development shallowly embeds the two relevant source files:

* `src/api/Agents/Agent.py` — the `Agent` base class: a registry of MCP
  server configurations (a Python `dict`, i.e. an insertion-ordered map
  from string keys to opaque configuration bags), an optional active
  selection, and the registry-management and dispatch-validation methods.
* `src/api/client.py` — `MCPClient.connect_to_local_mcp`: suffix
  classification of the server script, construction of stdio parameters,
  and the (buggy) transport/session setup.

Python dictionaries are modelled as insertion-ordered association lists
`List (String × α)`; keys are unique in any dict a Python program can
build, and the operations below are faithful to `d[k] = v`, `k in d`,
`d.pop(k)` and `next(iter(d))` under that discipline.
-/

/-- Lookup in an insertion-ordered association list: the model of
Python `d[k]` / `k in d` (first entry with the key wins, as in a dict,
where keys are unique anyway). -/
def dictLookup {α : Type} (m : List (String × α)) (k : String) : Option α :=
  match m with
  | [] => none
  | (k', v) :: t => if k' = k then some v else dictLookup t k

/-- Model of Python `d[k] = v`: if the key is present the value is
updated in place (the key keeps its position), otherwise the pair is
appended at the end (insertion order). -/
def dictInsert {α : Type} (m : List (String × α)) (k : String) (v : α) : List (String × α) :=
  if (dictLookup m k).isSome then
    m.map (fun p => if p.1 = k then (k, v) else p)
  else
    m ++ [(k, v)]

/-- Model of Python `d.pop(k)`: removes the entry with key `k`,
preserving the order of the remaining entries. (With unique keys,
filtering out every entry with the key removes exactly the one entry.) -/
def dictPop {α : Type} (m : List (String × α)) (k : String) : List (String × α) :=
  m.filter (fun p => decide (p.1 ≠ k))

/-- The MCP-relevant state of an `Agent` (src/api/Agents/Agent.py):
the registry `self.mcp_servers` and the selection
`self.active_mcp_server`. The identity fields (`name`, `instructions`,
`config`) are never read by the modelled operations and are omitted.
The configuration bags are opaque to the core, hence a type parameter. -/
structure AgentState (α : Type) where
  mcp_servers : List (String × α)
  active_mcp_server : Option String
deriving Repr, DecidableEq

/-- Agent.__init__ (lines 27-32): `self.mcp_servers = mcp_servers or {}`
and `self.active_mcp_server = next(iter(self.mcp_servers)) if
self.mcp_servers else None` — the first key in insertion order when the
dict is non-empty, else None. -/
def agentInit {α : Type} (mcp_servers : Option (List (String × α))) : AgentState α :=
  let m := mcp_servers.getD []
  { mcp_servers := m, active_mcp_server := m.head?.map Prod.fst }

/-- Agent.add_mcp_server: `self.mcp_servers[server_name] = config`,
then if `self.active_mcp_server is None` set it to `server_name`. -/
def add_mcp_server {α : Type} (s : AgentState α) (server_name : String) (config : α) :
    AgentState α :=
  { mcp_servers := dictInsert s.mcp_servers server_name config,
    active_mcp_server :=
      if s.active_mcp_server.isNone then some server_name else s.active_mcp_server }

/-- Agent.remove_mcp_server: if the name is a key, pop it; if the
removed server was the active one, re-point the selection at
`next(iter(self.mcp_servers))` when the dict is still non-empty, else
None; return True. If the name is not a key, change nothing and return
False. -/
def remove_mcp_server {α : Type} (s : AgentState α) (server_name : String) :
    AgentState α × Bool :=
  if (dictLookup s.mcp_servers server_name).isSome then
    let m := dictPop s.mcp_servers server_name
    let active :=
      if s.active_mcp_server = some server_name then m.head?.map Prod.fst
      else s.active_mcp_server
    ({ mcp_servers := m, active_mcp_server := active }, true)
  else
    (s, false)

/-- Agent.set_active_mcp_server: if the name is a key, set the
selection and return True; otherwise change nothing and return False. -/
def set_active_mcp_server {α : Type} (s : AgentState α) (server_name : String) :
    AgentState α × Bool :=
  if (dictLookup s.mcp_servers server_name).isSome then
    ({ s with active_mcp_server := some server_name }, true)
  else
    (s, false)

/-- Python truthiness of an `Optional[str]`: `None` and the empty
string are falsy, every non-empty string is truthy. -/
def pyTruthy (x : Option String) : Bool :=
  match x with
  | none => false
  | some s => decide (s ≠ "")

/-- Python `x or y` on `Optional[str]` values: `y` when `x` is falsy
(None or the empty string), else `x`. -/
def pyOrName (x y : Option String) : Option String :=
  if pyTruthy x then x else y

/-- The outcome of `Agent.execute_tool` / `Agent.get_available_tools`
in the base class. The ValueError messages of the source are carried as
constructors; the spec taxonomy calls both of them ConfigurationError. -/
inductive AgentErr where
  /-- ValueError: No MCP server specified and no active server configured. -/
  | noServerConfigured
  /-- ValueError: the resolved target server is not found in the registry. -/
  | serverNotFound (name : String)
deriving Repr, DecidableEq

/-- How a dispatch call ends in the base class: either a registry
resolution error raised before anything else happens, or control
reaches the dispatch point (where the abstract base class raises
NotImplementedError; no session is ever contacted before that point). -/
inductive DispatchOutcome where
  | configError (e : AgentErr)
  | notImplementedDispatch (target : String)
deriving Repr, DecidableEq

/-- Agent.execute_tool (lines 127-155):
`target_server = server_name or self.active_mcp_server`;
`if not target_server` raise the no-server ValueError;
`if target_server not in self.mcp_servers` raise the not-found
ValueError; otherwise fall through to the dispatch point. -/
def execute_tool {α β : Type} (s : AgentState α) (tool_name : String) (tool_input : β)
    (server_name : Option String) : DispatchOutcome :=
  let _ := tool_name
  let _ := tool_input
  match pyOrName server_name s.active_mcp_server with
  | none => .configError .noServerConfigured
  | some t =>
    if t = "" then .configError .noServerConfigured
    else if (dictLookup s.mcp_servers t).isSome then .notImplementedDispatch t
    else .configError (.serverNotFound t)

/-- Agent.get_available_tools (lines 157-179): the source duplicates
the resolve-and-validate sequence of execute_tool verbatim. -/
def get_available_tools {α : Type} (s : AgentState α) (server_name : Option String) :
    DispatchOutcome :=
  match pyOrName server_name s.active_mcp_server with
  | none => .configError .noServerConfigured
  | some t =>
    if t = "" then .configError .noServerConfigured
    else if (dictLookup s.mcp_servers t).isSome then .notImplementedDispatch t
    else .configError (.serverNotFound t)

/-- The agent states reachable by any sequence of add_mcp_server,
remove_mcp_server and set_active_mcp_server calls from a freshly
constructed Agent (any constructor argument). -/
inductive Reachable {α : Type} : AgentState α → Prop where
  | init (servers : Option (List (String × α))) : Reachable (agentInit servers)
  | add {s : AgentState α} (n : String) (c : α) :
      Reachable s → Reachable (add_mcp_server s n c)
  | remove {s : AgentState α} (n : String) :
      Reachable s → Reachable (remove_mcp_server s n).1
  | setActive {s : AgentState α} (n : String) :
      Reachable s → Reachable (set_active_mcp_server s n).1

/-! Heap model for aliasing (Agent.get_mcp_servers).

In Python, `self.mcp_servers` is a reference to a heap dict object and
`return self.mcp_servers` (lines 117-124) returns that reference, not a
copy. To state what a caller-side mutation of the returned value does,
the heap is made explicit: addresses are indices into a list of dicts,
an agent object stores the address of its registry dict, and
get_mcp_servers returns the stored address. -/

/-- A heap of dictionaries; an address is an index into the list. -/
abbrev DictHeap (α : Type) := List (List (String × α))

/-- Dereference an address on the heap. -/
def heapRead {α : Type} (h : DictHeap α) (r : Nat) : List (String × α) :=
  List.getD h r []

/-- Overwrite the dict object at an address (the effect of mutating
that dict in place). -/
def heapWrite {α : Type} (h : DictHeap α) (r : Nat) (d : List (String × α)) : DictHeap α :=
  List.set h r d

/-- An Agent object under the explicit-heap view: `self.mcp_servers`
is the address of the registry dict; the active selection is a value
stored directly in the object. -/
structure AgentObj where
  mcp_servers_ref : Nat
  active_mcp_server : Option String
deriving Repr, DecidableEq

/-- Agent.get_mcp_servers: `return self.mcp_servers` — returns the
reference held in the attribute (the address of the internal dict),
not a copy of the dict. -/
def get_mcp_servers_ref (a : AgentObj) : Nat :=
  a.mcp_servers_ref

/-! Model of src/api/client.py. -/

/-- The record built at line 22: StdioServerParameters(command=...,
args=[server_script_path], env=None). -/
structure StdioServerParameters where
  command : String
  args : List String
deriving Repr, DecidableEq

/-- A resource entered on the AsyncExitStack: the stdio transport, or
the ClientSession layered over it. Each is tagged with the script path
it serves. -/
inductive Resource where
  | stdioTransport (path : String)
  | clientSession (path : String)
deriving Repr, DecidableEq

/-- The exceptions connect_to_local_mcp can raise: the ValueError of
the suffix check (the UnsupportedTargetError of the spec taxonomy), a
NameError for a variable that is not bound in the local scope, and the
failure of session.initialize (the HandshakeError of the spec
taxonomy). -/
inductive PyExn where
  | valueError (msg : String)
  | nameError (missing : String)
  | handshakeFailure
deriving Repr, DecidableEq

/-- How a call to connect_to_local_mcp ends. -/
inductive ConnectResult where
  | ok
  | raised (e : PyExn)
deriving Repr, DecidableEq

/-- The resource-relevant state of an MCPClient (client.py lines 8-13):
`self.session` (None until a ClientSession is created) and
`self.exit_stack` (the AsyncExitStack, modelled as the ordered list of
contexts entered on it; __init__ makes it empty). The llm, tools and
message fields are never touched by connect and are omitted. -/
structure ClientState where
  session : Option String
  exit_stack : List Resource
deriving Repr, DecidableEq

/-- MCPClient.__init__: no session, empty exit stack. -/
def initialClientState : ClientState :=
  { session := none, exit_stack := [] }

/-- Python str.endswith: the argument is a suffix of the character
sequence of the string. -/
def pyEndswith (s suffix : String) : Bool :=
  List.isSuffixOf suffix.data s.data

/-- The local names bound in the scope of connect_to_local_mcp when
line 27 executes: the two parameters, then the assignments of lines
17, 18, 21 and 22 in order. The name `server_params` that line 27
evaluates is not among them. -/
def boundLocals : List String :=
  ["self", "server_script_path", "is_python", "is_js", "command", "server_parameters"]

/-- MCPClient.connect_to_local_mcp (client.py lines 16-31).

Line by line: classify the path by suffix (`.py` / `.js`), raising
ValueError("Server script must be a .py or .js file") for any other
suffix before anything is acquired; pick the command; build the
StdioServerParameters; then line 27 evaluates the expression
`stdio_client(server_params)` — its argument is a name lookup, and
`server_params` is not bound in the local (or any enclosing) scope, so
Python raises NameError before stdio_client is called and before
anything is entered on the exit stack. The remaining lines (enter the
stdio transport on the exit stack, enter the ClientSession, then await
session.initialize, whose failure `handshakeOk = false` would propagate
with the entered contexts still on the stack, since nothing unwinds
them here) are transcribed but are reachable only if `server_params`
were bound. -/
def connect_to_local_mcp (handshakeOk : Bool) (server_script_path : String)
    (st : ClientState) : ConnectResult × ClientState :=
  let is_python := pyEndswith server_script_path ".py"
  let is_js := pyEndswith server_script_path ".js"
  if !(is_python || is_js) then
    (.raised (.valueError "Server script must be a .py or .js file"), st)
  else
    let command := if is_python then "python" else "node"
    let server_parameters : StdioServerParameters :=
      { command := command, args := [server_script_path] }
    let _ := server_parameters
    if "server_params" ∈ boundLocals then
      let st := { st with
        exit_stack := st.exit_stack ++ [Resource.stdioTransport server_script_path] }
      let st := { st with
        exit_stack := st.exit_stack ++ [Resource.clientSession server_script_path],
        session := some server_script_path }
      if handshakeOk then (.ok, st) else (.raised .handshakeFailure, st)
    else
      (.raised (.nameError "server_params"), st)

/-! Association-list lemmas for the dict model. -/

/-- Lookup distributes over append, preferring the left list. -/
theorem dictLookup_append {α : Type} (m m2 : List (String × α)) (k : String) :
    dictLookup (m ++ m2) k =
      match dictLookup m k with
      | some v => some v
      | none => dictLookup m2 k := by
  induction m with
  | nil => rfl
  | cons p t ih =>
    obtain ⟨k', v⟩ := p
    by_cases h : k' = k <;> simp [dictLookup, h, ih]

/-- In-place update of key `k` does not change lookups of other keys. -/
theorem dictLookup_update_ne {α : Type} (m : List (String × α)) (k a : String) (v : α)
    (h : a ≠ k) :
    dictLookup (m.map (fun p => if p.1 = k then (k, v) else p)) a = dictLookup m a := by
  induction m with
  | nil => rfl
  | cons p t ih =>
    obtain ⟨k', w⟩ := p
    show dictLookup ((if k' = k then (k, v) else (k', w)) :: t.map _) a = _
    by_cases hk : k' = k
    · rw [if_pos hk]
      subst hk
      show (if k' = a then some v else dictLookup (t.map _) a) =
        (if k' = a then some w else dictLookup t a)
      rw [if_neg (fun hh => h hh.symm), if_neg (fun hh => h hh.symm), ih]
    · rw [if_neg hk]
      show (if k' = a then some w else dictLookup (t.map _) a) =
        (if k' = a then some w else dictLookup t a)
      by_cases ha : k' = a
      · rw [if_pos ha, if_pos ha]
      · rw [if_neg ha, if_neg ha, ih]

/-- In-place update of a present key `k` makes its lookup the new value. -/
theorem dictLookup_update_self {α : Type} (m : List (String × α)) (k : String) (v : α)
    (h : (dictLookup m k).isSome = true) :
    dictLookup (m.map (fun p => if p.1 = k then (k, v) else p)) k = some v := by
  induction m with
  | nil => simp [dictLookup] at h
  | cons p t ih =>
    obtain ⟨k', w⟩ := p
    show dictLookup ((if k' = k then (k, v) else (k', w)) :: t.map _) k = some v
    by_cases hk : k' = k
    · rw [if_pos hk]
      show (if k = k then some v else dictLookup (t.map _) k) = some v
      rw [if_pos rfl]
    · rw [if_neg hk]
      show (if k' = k then some w else dictLookup (t.map _) k) = some v
      rw [if_neg hk]
      apply ih
      have hstep : dictLookup ((k', w) :: t) k = dictLookup t k := by
        show (if k' = k then some w else dictLookup t k) = dictLookup t k
        rw [if_neg hk]
      rw [hstep] at h
      exact h

/-- Characterisation of lookup after a Python dict assignment. -/
theorem dictLookup_dictInsert {α : Type} (m : List (String × α)) (k a : String) (v : α) :
    dictLookup (dictInsert m k v) a = if a = k then some v else dictLookup m a := by
  unfold dictInsert
  by_cases hk : (dictLookup m k).isSome = true
  · simp only [hk, if_true]
    by_cases ha : a = k
    · subst ha; simp [dictLookup_update_self m a v hk]
    · simp [dictLookup_update_ne m k a v ha, ha]
  · simp only [hk]
    simp only [Bool.false_eq_true, if_false]
    rw [dictLookup_append]
    have hnone : dictLookup m k = none := by
      cases hlk : dictLookup m k with
      | none => rfl
      | some w => rw [hlk] at hk; simp at hk
    by_cases ha : a = k
    · subst ha; simp [hnone, dictLookup]
    · cases hla : dictLookup m a with
      | none => simp [hla, dictLookup, Ne.symm ha, ha]
      | some w => simp [hla, ha]

/-- Characterisation of lookup after a Python dict pop. -/
theorem dictLookup_dictPop {α : Type} (m : List (String × α)) (k a : String) :
    dictLookup (dictPop m k) a = if a = k then none else dictLookup m a := by
  induction m with
  | nil =>
    by_cases ha : a = k <;> simp [dictPop, dictLookup, ha]
  | cons p t ih =>
    obtain ⟨k', v⟩ := p
    by_cases hk : k' = k
    · have hstep : dictPop ((k', v) :: t) k = dictPop t k := by
        simp [dictPop, List.filter_cons, hk]
      rw [hstep, ih]
      by_cases ha : a = k
      · rw [if_pos ha, if_pos ha]
      · rw [if_neg ha, if_neg ha]
        show dictLookup t a = if k' = a then some v else dictLookup t a
        rw [if_neg (by rw [hk]; exact fun hh => ha hh.symm)]
    · have hstep : dictPop ((k', v) :: t) k = (k', v) :: dictPop t k := by
        simp [dictPop, List.filter_cons, hk]
      rw [hstep]
      by_cases hka : k' = a
      · have hak : ¬ (a = k) := by rw [← hka]; exact hk
        show (if k' = a then some v else dictLookup (dictPop t k) a) =
          if a = k then none else dictLookup ((k', v) :: t) a
        rw [if_pos hka, if_neg hak]
        show some v = if k' = a then some v else dictLookup t a
        rw [if_pos hka]
      · show (if k' = a then some v else dictLookup (dictPop t k) a) =
          if a = k then none else dictLookup ((k', v) :: t) a
        rw [if_neg hka, ih]
        by_cases ha : a = k
        · rw [if_pos ha, if_pos ha]
        · rw [if_neg ha, if_neg ha]
          show dictLookup t a = if k' = a then some v else dictLookup t a
          rw [if_neg hka]

/-- A list with a successful lookup is non-empty. -/
theorem dictLookup_ne_nil {α : Type} (m : List (String × α)) (a : String)
    (h : (dictLookup m a).isSome = true) : m ≠ [] := by
  intro he
  subst he
  simp [dictLookup] at h

/-- Looking up the key of the head entry succeeds. -/
theorem dictLookup_head {α : Type} (p : String × α) (t : List (String × α)) :
    dictLookup (p :: t) p.1 = some p.2 := by
  obtain ⟨k, v⟩ := p
  simp [dictLookup]

/-! The active-selection invariant and its preservation. -/

/-- The invariant of §3 of the spec: the selection is None exactly when
the registry is empty, and a set selection always names a registry key. -/
def ActiveInvariant {α : Type} (s : AgentState α) : Prop :=
  (s.active_mcp_server = none ↔ s.mcp_servers = []) ∧
  ∀ n, s.active_mcp_server = some n → (dictLookup s.mcp_servers n).isSome = true

/-- A freshly constructed Agent satisfies the invariant, whatever
constructor argument it was given. -/
theorem activeInv_init {α : Type} (servers : Option (List (String × α))) :
    ActiveInvariant (agentInit servers) := by
  unfold ActiveInvariant agentInit
  cases hm : servers.getD [] with
  | nil => simp
  | cons p t =>
    obtain ⟨k, v⟩ := p
    refine ⟨by simp, ?_⟩
    intro n hn
    simp only [List.head?_cons, Option.map_some] at hn
    have hn' : k = n := Option.some.inj hn
    subst hn'
    simp [dictLookup]

/-- add_mcp_server preserves the invariant. -/
theorem activeInv_add {α : Type} {s : AgentState α} (n : String) (c : α)
    (h : ActiveInvariant s) : ActiveInvariant (add_mcp_server s n c) := by
  obtain ⟨hiff, hmem⟩ := h
  unfold ActiveInvariant add_mcp_server
  cases hact : s.active_mcp_server with
  | none =>
    simp only [hact, Option.isNone_none, if_true]
    constructor
    · constructor
      · intro hc; exact absurd hc (by simp)
      · intro hc
        have : (dictLookup (dictInsert s.mcp_servers n c) n).isSome = true := by
          rw [dictLookup_dictInsert]; simp
        exact absurd hc (dictLookup_ne_nil _ _ this)
    · intro b hb
      have hb' : n = b := Option.some.inj hb
      subst hb'
      rw [dictLookup_dictInsert]; simp
  | some a =>
    simp only [hact, Option.isNone_some, Bool.false_eq_true, if_false]
    have hlk : (dictLookup (dictInsert s.mcp_servers n c) a).isSome = true := by
      rw [dictLookup_dictInsert]
      by_cases ha : a = n
      · simp [ha]
      · simp only [ha, if_false]
        exact hmem a hact
    constructor
    · constructor
      · intro hc; exact absurd hc (by simp)
      · intro hc; exact absurd hc (dictLookup_ne_nil _ _ hlk)
    · intro b hb
      have hb' : a = b := Option.some.inj hb
      subst hb'
      exact hlk

/-- remove_mcp_server preserves the invariant. -/
theorem activeInv_remove {α : Type} {s : AgentState α} (n : String)
    (h : ActiveInvariant s) : ActiveInvariant (remove_mcp_server s n).1 := by
  obtain ⟨hiff, hmem⟩ := h
  unfold remove_mcp_server
  by_cases hlk : (dictLookup s.mcp_servers n).isSome = true
  · simp only [hlk, if_true]
    by_cases hact : s.active_mcp_server = some n
    · simp only [hact, if_pos rfl]
      unfold ActiveInvariant
      cases hm : dictPop s.mcp_servers n with
      | nil => simp
      | cons p t =>
        obtain ⟨k, v⟩ := p
        refine ⟨by simp, ?_⟩
        intro b hb
        simp only [List.head?_cons, Option.map_some] at hb
        have hb' : k = b := Option.some.inj hb
        subst hb'
        simp [dictLookup]
    · simp only [if_neg hact]
      unfold ActiveInvariant
      have hne : s.mcp_servers ≠ [] := dictLookup_ne_nil _ _ hlk
      cases hactv : s.active_mcp_server with
      | none => exact absurd (hiff.mp hactv) hne
      | some a =>
        have han : a ≠ n := fun hh => hact (by rw [hactv, hh])
        have hlka : (dictLookup (dictPop s.mcp_servers n) a).isSome = true := by
          rw [dictLookup_dictPop, if_neg han]
          exact hmem a hactv
        refine ⟨⟨fun hc => absurd hc (by simp), fun hc => ?_⟩, ?_⟩
        · exact absurd hc (dictLookup_ne_nil _ _ hlka)
        · intro b hb
          have hb' : a = b := Option.some.inj hb
          subst hb'
          exact hlka
  · simp only [hlk]
    simp only [Bool.false_eq_true, if_false]
    exact ⟨hiff, hmem⟩

/-- set_active_mcp_server preserves the invariant. -/
theorem activeInv_setActive {α : Type} {s : AgentState α} (n : String)
    (h : ActiveInvariant s) : ActiveInvariant (set_active_mcp_server s n).1 := by
  obtain ⟨hiff, hmem⟩ := h
  unfold set_active_mcp_server
  by_cases hlk : (dictLookup s.mcp_servers n).isSome = true
  · simp only [hlk, if_true]
    refine ⟨⟨fun hc => absurd hc (by simp), fun hc => ?_⟩, ?_⟩
    · exact absurd hc (dictLookup_ne_nil _ _ hlk)
    · intro b hb
      have hb' : n = b := Option.some.inj hb
      subst hb'
      exact hlk
  · simp only [hlk]
    simp only [Bool.false_eq_true, if_false]
    exact ⟨hiff, hmem⟩

/-- Mutating the dict stored at a valid heap address is visible at that
address afterwards. -/
theorem heapRead_heapWrite_self {α : Type} (h : DictHeap α) (r : Nat)
    (d : List (String × α)) (hr : r < h.length) :
    heapRead (heapWrite h r d) r = d := by
  induction h generalizing r with
  | nil => simp at hr
  | cons x t ih =>
    cases r with
    | zero => rfl
    | succ k => exact ih k (Nat.lt_of_succ_lt_succ hr)

/-! Claim theorems. -/

/-- C1: for every sequence of add_mcp_server, remove_mcp_server and
set_active_mcp_server calls starting from a freshly constructed Agent,
the active selection is None exactly when the registry is empty, and a
set selection always names a key of the registry. -/
theorem agent_active_selection_invariant {α : Type} (s : AgentState α) (h : Reachable s) :
    (s.active_mcp_server = none ↔ s.mcp_servers = []) ∧
    ∀ n, s.active_mcp_server = some n → (dictLookup s.mcp_servers n).isSome = true := by
  have hinv : ActiveInvariant s := by
    induction h with
    | init servers => exact activeInv_init servers
    | add n c _ ih => exact activeInv_add n c ih
    | remove n _ ih => exact activeInv_remove n ih
    | setActive n _ ih => exact activeInv_setActive n ih
  exact hinv

/-- Witness: after adding server a to a fresh agent, the reachability
hypothesis holds by construction and the selection names the key a. -/
theorem agent_active_selection_invariant_checks :
    (dictLookup (add_mcp_server (agentInit (α := Nat) none) "a" 0).mcp_servers "a").isSome
      = true :=
  (agent_active_selection_invariant _ (Reachable.add "a" 0 (Reachable.init none))).2 "a" rfl

/-- C3: add_mcp_server on an empty registry with no selection makes the
new server active; when a selection is already set, adding any further
server leaves the selection unchanged. -/
theorem add_first_server_activation {α : Type} (s : AgentState α) (n : String) (c : α) :
    (s.mcp_servers = [] → s.active_mcp_server = none →
      (add_mcp_server s n c).active_mcp_server = some n) ∧
    (∀ a, s.active_mcp_server = some a →
      (add_mcp_server s n c).active_mcp_server = some a) := by
  constructor
  · intro _ hact
    simp [add_mcp_server, hact]
  · intro a hact
    simp [add_mcp_server, hact]

/-- Witness: on the empty agent, adding a activates it; with a active,
adding b keeps a active. -/
theorem add_first_server_activation_checks :
    (add_mcp_server (AgentState.mk ([] : List (String × Nat)) none) "a" 0).active_mcp_server
        = some "a" ∧
    (add_mcp_server (AgentState.mk [("a", (0 : Nat))] (some "a")) "b" 1).active_mcp_server
        = some "a" :=
  ⟨(add_first_server_activation _ "a" 0).1 rfl rfl,
   (add_first_server_activation _ "b" 1).2 "a" rfl⟩

/-- C4: remove_mcp_server returns true exactly when the name is a key
(and then deletes it); when the removed server was the active one, the
new selection is a member of the remaining registry if any servers
remain, and None if the registry became empty; removing a non-active
name never changes the selection (and a miss changes nothing at all). -/
theorem remove_server_contract {α : Type} (s : AgentState α) (n : String) :
    ((remove_mcp_server s n).2 = true ↔ (dictLookup s.mcp_servers n).isSome = true) ∧
    ((remove_mcp_server s n).2 = true →
      dictLookup (remove_mcp_server s n).1.mcp_servers n = none) ∧
    ((dictLookup s.mcp_servers n).isSome = true → s.active_mcp_server = some n →
      ((remove_mcp_server s n).1.mcp_servers = [] →
        (remove_mcp_server s n).1.active_mcp_server = none) ∧
      ((remove_mcp_server s n).1.mcp_servers ≠ [] →
        ∃ k, (remove_mcp_server s n).1.active_mcp_server = some k ∧
          (dictLookup (remove_mcp_server s n).1.mcp_servers k).isSome = true)) ∧
    (s.active_mcp_server ≠ some n →
      (remove_mcp_server s n).1.active_mcp_server = s.active_mcp_server ∧
      ((remove_mcp_server s n).2 = false → (remove_mcp_server s n).1 = s)) := by
  by_cases hlk : (dictLookup s.mcp_servers n).isSome = true
  · have hres : remove_mcp_server s n =
        ({ mcp_servers := dictPop s.mcp_servers n,
           active_mcp_server :=
             if s.active_mcp_server = some n
             then (dictPop s.mcp_servers n).head?.map Prod.fst
             else s.active_mcp_server }, true) := by
      unfold remove_mcp_server
      rw [if_pos hlk]
    rw [hres]
    refine ⟨by simp [hlk], ?_, ?_, ?_⟩
    · intro _
      show dictLookup (dictPop s.mcp_servers n) n = none
      rw [dictLookup_dictPop, if_pos rfl]
    · intro _ hact
      simp only [hact, if_pos rfl]
      cases hm : dictPop s.mcp_servers n with
      | nil => simp
      | cons p t =>
        refine ⟨by simp, ?_⟩
        intro _
        exact ⟨p.1, by simp, by rw [dictLookup_head]; rfl⟩
    · intro hact
      refine ⟨?_, ?_⟩
      · show (if s.active_mcp_server = some n
            then (dictPop s.mcp_servers n).head?.map Prod.fst
            else s.active_mcp_server) = s.active_mcp_server
        rw [if_neg hact]
      · intro hfalse
        simp at hfalse
  · have hres : remove_mcp_server s n = (s, false) := by
      unfold remove_mcp_server
      rw [if_neg hlk]
    rw [hres]
    refine ⟨by simp [hlk], ?_, ?_, ?_⟩
    · intro hc; simp at hc
    · intro hmem; exact absurd hmem hlk
    · intro _; exact ⟨rfl, fun _ => rfl⟩

/-- Witness: on the registry a, b with a active, removing a succeeds,
deletes a and re-points the selection at b; removing the sole server b
from the registry b clears the selection. -/
theorem remove_server_contract_checks :
    (remove_mcp_server (AgentState.mk [("a", (0 : Nat)), ("b", 1)] (some "a")) "a").2
        = true ∧
    dictLookup
      (remove_mcp_server (AgentState.mk [("a", (0 : Nat)), ("b", 1)] (some "a")) "a").1.mcp_servers
      "a" = none ∧
    (remove_mcp_server (AgentState.mk [("a", (0 : Nat)), ("b", 1)] (some "b")) "a").1.active_mcp_server
        = some "b" ∧
    (remove_mcp_server (AgentState.mk [("b", (1 : Nat))] (some "b")) "b").1.active_mcp_server
        = none :=
  ⟨(remove_server_contract _ "a").1.mpr (by decide),
   (remove_server_contract _ "a").2.1
     ((remove_server_contract _ "a").1.mpr (by decide)),
   ((remove_server_contract _ "a").2.2.2 (by decide)).1,
   ((remove_server_contract _ "b").2.2.1 (by decide) rfl).1 (by decide)⟩

/-- C5: set_active_mcp_server on an unregistered name returns false and
leaves the whole state unchanged; on a registered name it returns true
and only updates the selection. -/
theorem set_active_contract {α : Type} (s : AgentState α) (n : String) :
    ((dictLookup s.mcp_servers n).isSome = false →
      set_active_mcp_server s n = (s, false)) ∧
    ((dictLookup s.mcp_servers n).isSome = true →
      set_active_mcp_server s n =
        ({ mcp_servers := s.mcp_servers, active_mcp_server := some n }, true)) := by
  constructor
  · intro h
    unfold set_active_mcp_server
    rw [if_neg (by simp [h])]
  · intro h
    unfold set_active_mcp_server
    rw [if_pos h]

/-- Witness: activating the unregistered z changes nothing and reports
false; activating the registered b succeeds. -/
theorem set_active_contract_checks :
    set_active_mcp_server (AgentState.mk [("a", (0 : Nat))] (some "a")) "z"
        = (AgentState.mk [("a", (0 : Nat))] (some "a"), false) ∧
    set_active_mcp_server (AgentState.mk [("a", (0 : Nat)), ("b", 1)] (some "a")) "b"
        = (AgentState.mk [("a", (0 : Nat)), ("b", 1)] (some "b"), true) :=
  ⟨(set_active_contract _ "z").1 (by decide),
   (set_active_contract _ "b").2 (by decide)⟩

/-- C2 counterexample: the registry holds exactly the server a (so the
empty string is absent from it) and a is active; the explicit argument
server_name set to the empty string does not make the call raise the
ConfigurationError the claim demands — instead resolution falls back to
the active server and both calls reach the dispatch point for a. -/
theorem dispatch_explicit_empty_name_cex :
    (dictLookup [("a", (0 : Nat))] "").isSome = false ∧
    execute_tool (AgentState.mk [("a", (0 : Nat))] (some "a")) "t" (0 : Nat) (some "")
        = DispatchOutcome.notImplementedDispatch "a" ∧
    get_available_tools (AgentState.mk [("a", (0 : Nat))] (some "a")) (some "")
        = DispatchOutcome.notImplementedDispatch "a" := by
  refine ⟨by decide, by decide, by decide⟩

/-- C2 amended: with no explicit server_name and no active server both
calls raise the no-server ValueError (the ConfigurationError of the
spec), and an explicit NON-EMPTY server_name absent from the registry
raises the not-found ValueError whatever the active selection is; in
the model both errors are produced at the resolve-and-validate stage,
before the dispatch point is ever reached. The empty string is falsy in
Python, so it is not treated as an explicit name (see the fallback
theorem for C10). -/
theorem dispatch_configuration_errors {α β : Type} (s : AgentState α) (tool : String)
    (inp : β) :
    (s.active_mcp_server = none →
      execute_tool s tool inp none
          = DispatchOutcome.configError AgentErr.noServerConfigured ∧
      get_available_tools s none
          = DispatchOutcome.configError AgentErr.noServerConfigured) ∧
    (∀ n, n ≠ "" → dictLookup s.mcp_servers n = none →
      execute_tool s tool inp (some n)
          = DispatchOutcome.configError (AgentErr.serverNotFound n) ∧
      get_available_tools s (some n)
          = DispatchOutcome.configError (AgentErr.serverNotFound n)) := by
  constructor
  · intro hact
    constructor <;> simp [execute_tool, get_available_tools, pyOrName, pyTruthy, hact]
  · intro n hn hlk
    constructor <;> simp [execute_tool, get_available_tools, pyOrName, pyTruthy, hn, hlk]

/-- Witness: a fresh empty agent raises the no-server error, and an
agent with active a raises the not-found error for the absent z. -/
theorem dispatch_configuration_errors_checks :
    execute_tool (AgentState.mk ([] : List (String × Nat)) none) "t" (0 : Nat) none
        = DispatchOutcome.configError AgentErr.noServerConfigured ∧
    get_available_tools (AgentState.mk [("a", (0 : Nat))] (some "a")) (some "z")
        = DispatchOutcome.configError (AgentErr.serverNotFound "z") :=
  ⟨((dispatch_configuration_errors _ "t" (0 : Nat)).1 rfl).1,
   ((dispatch_configuration_errors (AgentState.mk [("a", (0 : Nat))] (some "a")) "t"
      (0 : Nat)).2 "z" (by decide) (by decide)).2⟩

/-- C10: an explicit empty-string server_name is falsy, so
`server_name or self.active_mcp_server` ignores it: both calls behave
exactly as if the argument had been omitted, and when no active server
is set they raise the no-server error. -/
theorem empty_server_name_not_explicit {α β : Type} (s : AgentState α) (tool : String)
    (inp : β) :
    execute_tool s tool inp (some "") = execute_tool s tool inp none ∧
    get_available_tools s (some "") = get_available_tools s none ∧
    (s.active_mcp_server = none →
      execute_tool s tool inp (some "")
          = DispatchOutcome.configError AgentErr.noServerConfigured) := by
  refine ⟨?_, ?_, ?_⟩
  · simp [execute_tool, pyOrName, pyTruthy]
  · simp [get_available_tools, pyOrName, pyTruthy]
  · intro hact
    simp [execute_tool, pyOrName, pyTruthy, hact]

/-- Witness: on an agent with no active server, the explicit empty
string produces the no-server error. -/
theorem empty_server_name_not_explicit_checks :
    execute_tool (AgentState.mk ([] : List (String × Nat)) none) "t" (0 : Nat) (some "")
        = DispatchOutcome.configError AgentErr.noServerConfigured :=
  (empty_server_name_not_explicit _ "t" (0 : Nat)).2.2 rfl

/-- C6 counterexample: one agent whose registry dict lives at heap
address 0 and holds exactly the server a; clearing the mapping obtained
from get_mcp_servers empties the internal registry too, so the returned
value is not a read-only view. -/
theorem get_mcp_servers_readonly_cex :
    heapRead (heapWrite [[("a", (0 : Nat))]]
        (get_mcp_servers_ref (AgentObj.mk 0 (some "a"))) [])
      (AgentObj.mk 0 (some "a")).mcp_servers_ref
    ≠ heapRead [[("a", (0 : Nat))]] (AgentObj.mk 0 (some "a")).mcp_servers_ref := by
  decide

/-- C6 amended: get_mcp_servers returns the very reference stored in
self.mcp_servers — a live reference, not a copy — so a caller mutation
applied through the returned value is a mutation of the internal
registry itself; the active selection, stored in the agent object and
not in the dict, is untouched by such a mutation. -/
theorem get_mcp_servers_live_reference {α : Type} (h : DictHeap α) (a : AgentObj)
    (d : List (String × α)) (hr : a.mcp_servers_ref < h.length) :
    get_mcp_servers_ref a = a.mcp_servers_ref ∧
    heapRead (heapWrite h (get_mcp_servers_ref a) d) a.mcp_servers_ref = d :=
  ⟨rfl, heapRead_heapWrite_self h a.mcp_servers_ref d hr⟩

/-- Witness: overwriting the returned mapping with the one-entry dict b
makes the internal registry that dict. -/
theorem get_mcp_servers_live_reference_checks :
    heapRead (heapWrite [[("a", (0 : Nat))]]
        (get_mcp_servers_ref (AgentObj.mk 0 (some "a"))) [("b", 1)])
      (AgentObj.mk 0 (some "a")).mcp_servers_ref = [("b", 1)] :=
  (get_mcp_servers_live_reference [[("a", (0 : Nat))]] (AgentObj.mk 0 (some "a"))
    [("b", 1)] (by decide)).2

/-- C7: connect_to_local_mcp on a path of unrecognised kind (neither
.py nor .js) raises the suffix-check ValueError — the
UnsupportedTargetError of the spec taxonomy — and returns the client
state untouched: nothing was entered on the exit stack and the session
is still unset, so no process or socket resource was acquired. -/
theorem connect_unsupported_kind_fails_early (handshakeOk : Bool) (p : String)
    (st : ClientState) (h1 : pyEndswith p ".py" = false) (h2 : pyEndswith p ".js" = false) :
    connect_to_local_mcp handshakeOk p st =
      (ConnectResult.raised (PyExn.valueError "Server script must be a .py or .js file"),
        st) := by
  simp [connect_to_local_mcp, h1, h2]

/-- Witness: a .txt path is rejected with the fresh client state
returned unchanged. -/
theorem connect_unsupported_kind_fails_early_checks :
    connect_to_local_mcp true "server.txt" initialClientState =
      (ConnectResult.raised (PyExn.valueError "Server script must be a .py or .js file"),
        initialClientState) :=
  connect_unsupported_kind_fails_early true "server.txt" initialClientState
    (by decide) (by decide)

/-- C9: on every path that passes the suffix check, line 27 evaluates
the name server_params, which the local scope never binds (the variable
assigned at line 22 is server_parameters), so the call raises NameError
with the client state untouched — nothing was entered on the exit
stack; consequently no call to connect_to_local_mcp ever returns
successfully, for any input whatsoever. -/
theorem connect_raises_name_error (handshakeOk : Bool) (p : String) (st : ClientState)
    (h : pyEndswith p ".py" = true ∨ pyEndswith p ".js" = true) :
    connect_to_local_mcp handshakeOk p st =
      (ConnectResult.raised (PyExn.nameError "server_params"), st) ∧
    ∀ (ok2 : Bool) (q : String) (st2 : ClientState),
      (connect_to_local_mcp ok2 q st2).1 ≠ ConnectResult.ok := by
  have hmem : ¬ ("server_params" ∈ boundLocals) := by decide
  constructor
  · rcases h with h | h <;> simp [connect_to_local_mcp, h, hmem]
  · intro ok2 q st2
    unfold connect_to_local_mcp
    by_cases hq : (pyEndswith q ".py" || pyEndswith q ".js") = true
    · simp [hq, hmem]
    · simp [hq]

/-- Witness: connecting to weather.py raises the NameError and leaves
the fresh client state unchanged. -/
theorem connect_raises_name_error_checks :
    connect_to_local_mcp true "weather.py" initialClientState =
      (ConnectResult.raised (PyExn.nameError "server_params"), initialClientState) :=
  (connect_raises_name_error true "weather.py" initialClientState
    (Or.inl (by decide))).1

/-- C8 assessment: the spec requires that when the transport opens and
the handshake then fails, the transport is released before the error
propagates. In the code that scenario can never occur: at the input
server.py (suffix check passed, handshake oracle set to fail) the call
raises the NameError of line 27 with the exit stack still empty and the
session unset, so the handshake is never reached — and the transcribed
handshake-failure branch contains no release step either (the entered
contexts would stay on the exit stack). -/
theorem connect_handshake_cleanup_unreachable :
    connect_to_local_mcp false "server.py" initialClientState =
      (ConnectResult.raised (PyExn.nameError "server_params"), initialClientState) := by
  decide
